import Mathlib

/-!
Verification development for `generate_map.py` (travel-map-2022).

The Python source is shallowly embedded: filenames and paths are `List Char`,
`datetime` values are encoded as integer seconds since 2022-01-01 00:00:00
(an order- and difference-preserving encoding of the civil times the program
manipulates; `timedelta` subtraction becomes integer subtraction), floats are
rationals (`ℚ`), and file-system / library effects are made explicit through
an environment record and an association-list file system.
-/

set_option synthInstance.maxSize 512
set_option maxRecDepth 8000

namespace TravelMap

/-- Filenames and paths are modelled as lists of characters. -/
abbrev Str := List Char

/-- Python `str.lower()` (ASCII case folding suffices for the extensions used). -/
def lowerStr (s : Str) : Str := s.map Char.toLower

/-- Python `str.endswith(suffix)`. -/
def strEndsWith (s suffix : Str) : Bool := suffix.isSuffixOf s

/-! ## Timestamp Codec (`extract_timestamp`, lines 233-250) -/

/-- A decimal digit character, as in the regex class `\d`. -/
def isDig (c : Char) : Bool := '0' ≤ c && c ≤ '9'

/-- Numeric value of a digit character. -/
def digVal (c : Char) : Nat := c.toNat - '0'.toNat

/-- The five capture groups of the pattern: month, day, hour, minute, second. -/
abbrev TSGroups := Nat × Nat × Nat × Nat × Nat

/-- Match the fixed-width pattern `2022(\d{2})(\d{2})_(\d{2})(\d{2})(\d{2})`
at the head of the character list, returning the parsed groups. -/
def matchTS : Str → Option TSGroups
  | '2' :: '0' :: '2' :: '2' :: m1 :: m2 :: d1 :: d2 :: '_' ::
      h1 :: h2 :: n1 :: n2 :: s1 :: s2 :: _ =>
    if isDig m1 && isDig m2 && isDig d1 && isDig d2 && isDig h1 && isDig h2 &&
        isDig n1 && isDig n2 && isDig s1 && isDig s2 then
      some (digVal m1 * 10 + digVal m2, digVal d1 * 10 + digVal d2,
            digVal h1 * 10 + digVal h2, digVal n1 * 10 + digVal n2,
            digVal s1 * 10 + digVal s2)
    else none
  | _ => none

/-- The pattern matched at position `i` of the filename (declarative
occurrence predicate used to state leftmost-match properties). -/
def tsAt (l : Str) (i : Nat) : Option TSGroups := matchTS (l.drop i)

/-- `re.search`: scan left to right for the first position where the pattern
matches; return its groups. -/
def searchTS : Str → Option TSGroups
  | [] => none
  | c :: t =>
    match matchTS (c :: t) with
    | some g => some g
    | none => searchTS t

/-- Days in each month of 2022 (not a leap year). -/
def monthDays (m : Nat) : Nat :=
  [31, 28, 31, 30, 31, 30, 31, 31, 30, 31, 30, 31].getD (m - 1) 0

/-- Validity condition enforced by the `datetime(2022, month, day, hour,
minute, second)` constructor (raises `ValueError` otherwise). -/
def validTS : TSGroups → Bool
  | (m, d, h, mi, s) =>
    1 ≤ m && m ≤ 12 && 1 ≤ d && d ≤ monthDays m && h ≤ 23 && mi ≤ 59 && s ≤ 59

/-- Days of 2022 strictly before the first day of month `m`. -/
def daysBefore (m : Nat) : Nat :=
  (List.range (m - 1)).foldl (fun acc i => acc + monthDays (i + 1)) 0

/-- Seconds since 2022-01-01 00:00:00 of the civil time
`2022-m-d h:mi:s`; the encoding of a `datetime` value. -/
def civilSecs : TSGroups → Int
  | (m, d, h, mi, s) =>
    ((daysBefore m + (d - 1)) * 24 + h : Int) * 3600 + mi * 60 + s

/-- The `SAMSUNG` device-family prefix checked by `filename.startswith`. -/
def samsungPrefix : Str := ['S', 'A', 'M', 'S', 'U', 'N', 'G']

/-- `extract_timestamp(filename)`: regex-search the filename for
`2022MMDD_HHMMSS`, build the datetime (None on `ValueError`), and subtract
9 hours when the filename starts with `SAMSUNG`. -/
def extract_timestamp (filename : Str) : Option Int :=
  match searchTS filename with
  | some g =>
    if validTS g then
      let dt := civilSecs g
      some (if samsungPrefix.isPrefixOf filename then dt - 9 * 3600 else dt)
    else none
  | none => none

/-! ## Coordinate Codec (`get_decimal_from_dms` lines 40-51, `to_deg` lines 175-185) -/

/-- Python 3 `round` to an integer: round half to even (banker's rounding). -/
def pyRound (q : ℚ) : Int :=
  let f := ⌊q⌋
  let r := q - f
  if r < 1 / 2 then f
  else if 1 / 2 < r then f + 1
  else if f % 2 = 0 then f else f + 1

/-- `get_decimal_from_dms(dms, ref)`: degrees + minutes/60 + seconds/3600,
negated when the hemisphere reference is `S` or `W`. -/
def get_decimal_from_dms (dms : ℚ × ℚ × ℚ) (ref : String) : ℚ :=
  let degrees := dms.1
  let minutes := dms.2.1
  let seconds := dms.2.2
  let decimal := degrees + minutes / 60 + seconds / 3600
  if ref = "S" ∨ ref = "W" then -decimal else decimal

/-- `to_deg(value, loc)` (inner helper of `set_gps_location`): decompose a
decimal coordinate into EXIF rational DMS pairs, with seconds at fixed
denominator 10000, and pick the hemisphere label from `loc` by sign. -/
def to_deg (value : ℚ) (loc : String × String) :
    ((Int × Int) × (Int × Int) × (Int × Int)) × String :=
  let loc_value := if value < 0 then loc.2 else loc.1
  let abs_value := |value|
  let deg : Int := ⌊abs_value⌋
  let t1 : ℚ := (abs_value - deg) * 60
  let mn : Int := ⌊t1⌋
  let sec : Int := pyRound ((t1 - mn) * 60 * 10000)
  (((deg, 1), (mn, 1), (sec, 10000)), loc_value)

/-- Numeric value of an EXIF rational pair (numerator, denominator), as the
`IFDRational` values PIL hands to `get_decimal_from_dms`. -/
def ratOfPair (p : Int × Int) : ℚ := (p.1 : ℚ) / (p.2 : ℚ)

/-- Numeric reading of the DMS triple produced by `to_deg`. -/
def dmsDecode (d : (Int × Int) × (Int × Int) × (Int × Int)) : ℚ × ℚ × ℚ :=
  (ratOfPair d.1, ratOfPair d.2.1, ratOfPair d.2.2)

lemma pyRound_err (q : ℚ) : |(pyRound q : ℚ) - q| ≤ 1 / 2 := by
  simp only [pyRound]
  have h0 : (⌊q⌋ : ℚ) ≤ q := Int.floor_le q
  have h1 : q < (⌊q⌋ : ℚ) + 1 := Int.lt_floor_add_one q
  split_ifs with hlt hgt hev
  · rw [abs_sub_comm, abs_of_nonneg (by linarith)]; linarith
  · push_cast
    rw [abs_of_nonneg (by linarith)]; linarith
  · have : q - (⌊q⌋ : ℚ) = 1 / 2 := le_antisymm (not_lt.mp hgt) (not_lt.mp hlt)
    rw [abs_sub_comm, abs_of_nonneg (by linarith)]; linarith
  · have : q - (⌊q⌋ : ℚ) = 1 / 2 := le_antisymm (not_lt.mp hgt) (not_lt.mp hlt)
    push_cast
    rw [abs_of_nonneg (by linarith)]; linarith

/-- Core round-trip bound on the nonnegative magnitude: decoding the DMS
triple produced for a magnitude `a` recovers `a` up to half a seconds-field
unit, `(1/10000)/3600/2 = 1/72000000`. -/
lemma dms_magnitude_err (a : ℚ) :
    |((⌊a⌋ : ℚ) + (⌊(a - (⌊a⌋ : ℚ)) * 60⌋ : ℚ) / 60 +
      ((pyRound (((a - (⌊a⌋ : ℚ)) * 60 - (⌊(a - (⌊a⌋ : ℚ)) * 60⌋ : ℚ)) * 60 * 10000) : ℚ)
        / 10000) / 3600) - a| ≤ 1 / 72000000 := by
  set deg : ℚ := (⌊a⌋ : ℚ) with hdeg
  set t1 : ℚ := (a - deg) * 60 with ht1
  set mn : ℚ := (⌊t1⌋ : ℚ) with hmn
  set k : ℚ := (t1 - mn) * 60 * 10000 with hk
  have herr := pyRound_err k
  have hid : (deg + mn / 60 + ((pyRound k : ℚ) / 10000) / 3600) - a
      = ((pyRound k : ℚ) - k) / 36000000 := by
    rw [hk, ht1]; ring
  rw [hid, abs_div, abs_of_pos (by norm_num : (0:ℚ) < 36000000)]
  rw [div_le_iff₀ (by norm_num : (0:ℚ) < 36000000)]
  calc |(pyRound k : ℚ) - k| ≤ 1 / 2 := herr
    _ = 1 / 72000000 * 36000000 := by norm_num

/-- Round-trip of the Coordinate Codec: `get_decimal_from_dms` applied to the
output of `to_deg` (for a latitude pair `("N","S")` or longitude pair
`("E","W")`) recovers the input within `1/72000000`. -/
lemma to_deg_roundtrip (x : ℚ) (loc : String × String)
    (hloc : loc = ("N", "S") ∨ loc = ("E", "W")) :
    |get_decimal_from_dms (dmsDecode (to_deg x loc).1) (to_deg x loc).2 - x|
      ≤ 1 / 72000000 := by
  have key := dms_magnitude_err |x|
  by_cases hx : x < 0
  · rcases hloc with h | h <;> subst h <;>
    · simp only [to_deg, dmsDecode, ratOfPair, get_decimal_from_dms, if_pos hx]
      rw [if_pos (by decide)]
      push_cast
      rw [show ∀ u : ℚ, -u - x = -(u - |x|) by intro u; rw [abs_of_neg hx]; ring,
        abs_neg]
      convert key using 4 <;> push_cast <;> ring
  · rcases hloc with h | h <;> subst h <;>
    · simp only [to_deg, dmsDecode, ratOfPair, get_decimal_from_dms, if_neg hx]
      rw [if_neg (by decide)]
      push_cast
      rw [show ∀ u : ℚ, u - x = u - |x| by intro u; rw [abs_of_nonneg (not_lt.mp hx)]]
      convert key using 4 <;> push_cast <;> ring

/-! ## EXIF reading (`get_exif_data` lines 23-38, `get_lat_lon` lines 53-70)

`get_exif_data(Image.open(path))` returns a dictionary; the only part the
program reads afterwards is the decoded `GPSInfo` sub-dictionary, modelled
here by `ExifData`.  The GPS DMS values PIL exposes are numbers
(`IFDRational`), modelled as rationals. -/

/-- The decoded `GPSInfo` sub-dictionary: each of the four fields may be
absent (`dict.get` returns `None`). -/
structure GPSInfoData where
  latitude : Option (ℚ × ℚ × ℚ)
  latitudeRef : Option String
  longitude : Option (ℚ × ℚ × ℚ)
  longitudeRef : Option String
deriving DecidableEq

/-- `get_exif_data`'s output, restricted to what the program consumes:
the `GPSInfo` entry if the image carried one. -/
structure ExifData where
  gpsInfo : Option GPSInfoData
deriving DecidableEq

/-- `get_lat_lon(exif_data)`: returns `(lat, lon)`, each `None` unless all
four GPS fields are present and truthy (a Python string is truthy iff
nonempty; the DMS tuples, modelled as triples, are always nonempty). -/
def get_lat_lon (e : ExifData) : Option ℚ × Option ℚ :=
  match e.gpsInfo with
  | none => (none, none)
  | some g =>
    match g.latitude, g.latitudeRef, g.longitude, g.longitudeRef with
    | some la, some lar, some lo, some lor =>
      if lar ≠ "" ∧ lor ≠ "" then
        (some (get_decimal_from_dms la lar), some (get_decimal_from_dms lo lor))
      else (none, none)
    | _, _, _, _ => (none, none)

/-! ## Reference Index (`get_reference_images` lines 252-269) -/

/-- A file of the reference directory: its name, and the `ExifData` that
opening and reading it would yield (`none` models `Image.open` or the
metadata read raising an exception). -/
structure RefFile where
  filename : Str
  exif : Option ExifData
deriving DecidableEq

/-- An entry of the reference index (the dict built at lines 264-268):
timestamp and file; the `exif` field carries what opening `path` yields. -/
structure RefImage where
  time : Int
  filename : Str
  exif : Option ExifData
deriving DecidableEq

/-- Extensions accepted when listing directories (lines 261, 330). -/
def listedExts : List Str :=
  [".png".toList, ".jpg".toList, ".jpeg".toList, ".tiff".toList,
   ".bmp".toList, ".gif".toList]

/-- `filename.lower().endswith(('.png', '.jpg', '.jpeg', '.tiff', '.bmp', '.gif'))`. -/
def hasImageExt (filename : Str) : Bool :=
  listedExts.any (strEndsWith (lowerStr filename))

/-- `get_reference_images(directory)`: over the directory listing (`none`
models a missing directory, which yields an empty index), keep image files
whose filename yields a timestamp. -/
def get_reference_images (dirListing : Option (List RefFile)) : List RefImage :=
  match dirListing with
  | none => []
  | some files =>
    files.filterMap fun f =>
      if hasImageExt f.filename then
        match extract_timestamp f.filename with
        | some dt => some ⟨dt, f.filename, f.exif⟩
        | none => none
      else none

/-! ## Closest-Match Resolver (`find_closest_gps_in_reference` lines 271-306) -/

/-- The loop at lines 292-304: walk candidates in order; skip a candidate
whose open/read raises, whose `get_lat_lon` is not fully present, or whose
latitude/longitude is falsy (`0.0`); return the first surviving pair. -/
def gpsWalk : List (Nat × RefImage) → Option ℚ × Option ℚ
  | [] => (none, none)
  | (_, r) :: rest =>
    match r.exif with
    | none => gpsWalk rest
    | some e =>
      match get_lat_lon e with
      | (some la, some lo) =>
        if la ≠ 0 ∧ lo ≠ 0 then (some la, some lo) else gpsWalk rest
      | _ => gpsWalk rest

/-- The comparison used to sort candidates: `key=lambda x: x[0]`, ascending. -/
def deltaLE (a b : Nat × RefImage) : Prop := a.1 ≤ b.1

instance : DecidableRel deltaLE := fun a b => Nat.decLe a.1 b.1

instance : IsTotal (Nat × RefImage) deltaLE := ⟨fun a b => Nat.le_total a.1 b.1⟩

instance : IsTrans (Nat × RefImage) deltaLE := ⟨fun _ _ _ => Nat.le_trans⟩

/-- `find_closest_gps_in_reference(target_filename, reference_images)`:
extract the target timestamp, pair every reference with its absolute time
delta, stable-sort ascending by delta (`candidates.sort` is a stable sort;
`List.insertionSort` is the stable sort by the same key), and walk for the
first candidate with truthy GPS. -/
def find_closest_gps_in_reference (target_filename : Str)
    (reference_images : List RefImage) : Option ℚ × Option ℚ :=
  match extract_timestamp target_filename with
  | none => (none, none)
  | some target_time =>
    let candidates := reference_images.map
      fun r => ((r.time - target_time).natAbs, r)
    if candidates.isEmpty then (none, none)
    else gpsWalk (candidates.insertionSort deltaLE)

/-- Spec-side characterization of the walk's acceptance test: the coordinate
pair a reference candidate contributes, if any (open succeeds, both fields
decoded, both nonzero). -/
def validCoord (r : RefImage) : Option (ℚ × ℚ) :=
  match r.exif with
  | none => none
  | some e =>
    match get_lat_lon e with
    | (some la, some lo) => if la ≠ 0 ∧ lo ≠ 0 then some (la, lo) else none
    | _ => none

/-! ## Metadata Writer (`set_gps_location` lines 166-231)

File-system effects are explicit: an association list from path to file
data, and an environment telling which fallible library calls succeed
(`piexif` import, PNG→JPEG conversion, the `piexif` load/dump/insert
sequence, `os.remove`).  A raised exception that the function does not
catch is an `Except.error`. -/

/-- The EXIF GPS block written by `set_gps_location` (the four fields set
at lines 211-214, values as `piexif` rational pairs). -/
structure ExifGPS where
  latRef : String
  lat : (Int × Int) × (Int × Int) × (Int × Int)
  lonRef : String
  lon : (Int × Int) × (Int × Int) × (Int × Int)
deriving DecidableEq

/-- Content of a file on disk: container format, abstract pixel payload,
and the embedded GPS block if any. -/
structure FileData where
  format : String
  pixels : Nat
  gps : Option ExifGPS
deriving DecidableEq

/-- The file system: an association of paths to file contents. -/
abbrev FS := List (Str × FileData)

def fsLookup : FS → Str → Option FileData
  | [], _ => none
  | (q, d) :: t, p => if q = p then some d else fsLookup t p

def fsRemove : FS → Str → FS
  | [], _ => []
  | (q, d) :: t, p => if q = p then fsRemove t p else (q, d) :: fsRemove t p

def fsInsert (fs : FS) (p : Str) (d : FileData) : FS := (p, d) :: fsRemove fs p

/-- Which fallible external calls succeed during a run, and the screenshot
directory listing (`none` = directory missing). -/
structure Env where
  piexifAvailable : Bool
  convertOk : Bool
  persistOk : Bool
  removeOk : Bool
  screenshotDir : Option (List Str)

/-- Python `str.rfind(c)`: index of the last occurrence, `-1` if absent. -/
def rfindIdx (c : Char) : Str → Int
  | [] => -1
  | x :: xs =>
    let r := rfindIdx c xs
    if r ≥ 0 then r + 1 else if x = c then 0 else -1

/-- `os.path.splitext`: split at the last dot that comes after the last
path separator, unless every character between them is a dot (leading-dot
filenames have no extension). -/
def splitext (p : Str) : Str × Str :=
  let sepIdx := rfindIdx '/' p
  let dotIdx := rfindIdx '.' p
  if sepIdx < dotIdx then
    if ((p.drop (sepIdx + 1).toNat).take (dotIdx - sepIdx - 1).toNat).any
        (fun c => c ≠ '.') then
      (p.take dotIdx.toNat, p.drop dotIdx.toNat)
    else (p, [])
  else (p, [])

/-- The extension gate at line 190: formats `piexif` supports. -/
def jpgFamily (p : Str) : Bool :=
  [".jpg".toList, ".jpeg".toList, ".tif".toList, ".tiff".toList].any
    (strEndsWith (lowerStr p))

/-- The four GPS fields written as a unit at lines 208-214. -/
def gpsEncode (lat lon : ℚ) : ExifGPS :=
  let latp := to_deg lat ("N", "S")
  let lonp := to_deg lon ("E", "W")
  { latRef := latp.2, lat := latp.1, lonRef := lonp.2, lon := lonp.1 }

/-- The `try` block at lines 206-231: load the EXIF dict, set the GPS
fields, dump and insert back into `filepath`; on success remove the
original when a conversion happened (swallowing `OSError`); on any
exception return the original path with the file system untouched. -/
def persistGps (env : Env) (fs : FS) (filepath original_filepath : Str)
    (lat lon : ℚ) : FS × Str :=
  match fsLookup fs filepath, env.persistOk with
  | some fd, true =>
    let fd2 := { fd with gps := some (gpsEncode lat lon) }
    let fs2 := fsInsert fs filepath fd2
    let fs3 :=
      if filepath ≠ original_filepath ∧ (fsLookup fs2 original_filepath).isSome then
        if env.removeOk then fsRemove fs2 original_filepath else fs2
      else fs2
    (fs3, filepath)
  | _, _ => (fs, original_filepath)

/-- `set_gps_location(filepath, lat, lon)`: re-raise if `piexif` is missing;
refuse unsupported containers; transcode PNG to JPEG (quality 95, RGB,
original EXIF not carried over) renaming to the `.jpg` extension; then
persist the GPS block. -/
def set_gps_location (env : Env) (fs : FS) (filepath : Str) (lat lon : ℚ) :
    Except String (FS × Str) :=
  if env.piexifAvailable = false then .error "ImportError: piexif"
  else
    let original_filepath := filepath
    if jpgFamily filepath = false then
      if strEndsWith (lowerStr filepath) ".png".toList then
        match fsLookup fs filepath, env.convertOk with
        | some fd, true =>
          let new_filepath := (splitext filepath).1 ++ ".jpg".toList
          let fs1 := fsInsert fs new_filepath
            { format := "JPEG", pixels := fd.pixels, gps := none }
          .ok (persistGps env fs1 new_filepath original_filepath lat lon)
        | _, _ => .ok (fs, original_filepath)
      else .ok (fs, original_filepath)
    else .ok (persistGps env fs filepath original_filepath lat lon)

/-! ## Batch Orchestrator (`main` lines 308-393, the per-photo loop) -/

/-- A row of the published `photos` array (lines 367-372, 381). -/
structure PhotoRecord where
  lat : ℚ
  lon : ℚ
  img : Str
  title : Str
  screenshot : Option Str
deriving DecidableEq

/-- Observable per-photo outcomes other than a new record: the skip print
at line 388 and the `except` print at line 391. -/
inductive LogEntry where
  | skipped (filename : Str)
  | errored (filename : Str)
deriving DecidableEq

/-- `os.path.basename`: the part after the last `/`. -/
def basenameStr (p : Str) : Str := p.drop (rfindIdx '/' p + 1).toNat

/-- `PHOTOS_DIR = "photos"`. -/
def photosDirStr : Str := "photos".toList

/-- The screenshot side-lookup at lines 375-382: first non-hidden file of
the screenshot directory whose lower-cased base name matches. -/
def findScreenshot (env : Env) (final_filename : Str) : Option Str :=
  match env.screenshotDir with
  | none => none
  | some files =>
    let target_base := lowerStr (splitext final_filename).1
    match files.find? (fun f =>
        !(['.'].isPrefixOf f) && (lowerStr (splitext f).1 == target_base)) with
    | some f => some ("screenshot".toList ++ '/' :: f)
    | none => none

/-- One iteration of the loop at lines 329-391 over state
(file system, records, log).  The `try`/`except Exception` wrapping the
body catches the writer's error and logs it; non-image files are passed
over silently. -/
def mainStep (env : Env) (refs : List RefImage)
    (st : FS × List PhotoRecord × List LogEntry) (filename : Str) :
    FS × List PhotoRecord × List LogEntry :=
  let (fs, recs, log) := st
  if hasImageExt filename then
    let filepath := photosDirStr ++ '/' :: filename
    match find_closest_gps_in_reference filename refs with
    | (some lat, some lon) =>
      if lat ≠ 0 ∧ lon ≠ 0 then
        match set_gps_location env fs filepath lat lon with
        | .error _ => (fs, recs, log ++ [.errored filename])
        | .ok (fs2, final_path) =>
          let final_filename := basenameStr final_path
          (fs2,
           recs ++ [{ lat := lat, lon := lon,
                      img := photosDirStr ++ '/' :: final_filename,
                      title := final_filename,
                      screenshot := findScreenshot env final_filename }],
           log)
      else (fs, recs, log ++ [.skipped filename])
    | _ => (fs, recs, log ++ [.skipped filename])
  else st

/-- The batch run: build the reference index, then fold the per-photo step
over the target directory listing. -/
def mainLoop (env : Env) (refListing : Option (List RefFile))
    (targets : List Str) (fs0 : FS) : FS × List PhotoRecord × List LogEntry :=
  targets.foldl (mainStep env (get_reference_images refListing)) (fs0, [], [])

/-! ## Helper lemmas -/

attribute [local semireducible] Rat.mul Rat.inv Rat.add Rat.sub

lemma fsLookup_remove_ne (fs : FS) {p q : Str} (h : p ≠ q) :
    fsLookup (fsRemove fs p) q = fsLookup fs q := by
  induction fs with
  | nil => rfl
  | cons e t ih =>
    obtain ⟨a, b⟩ := e
    by_cases ha : a = p
    · subst ha
      rw [fsRemove, if_pos rfl, fsLookup, if_neg h]
      exact ih
    · rw [fsRemove, if_neg ha, fsLookup, fsLookup]
      by_cases haq : a = q
      · simp [haq]
      · rw [if_neg haq, if_neg haq]
        exact ih

lemma fsLookup_remove_self (fs : FS) (p : Str) :
    fsLookup (fsRemove fs p) p = none := by
  induction fs with
  | nil => rfl
  | cons e t ih =>
    obtain ⟨a, b⟩ := e
    by_cases ha : a = p
    · subst ha
      rw [fsRemove, if_pos rfl]
      exact ih
    · rw [fsRemove, if_neg ha, fsLookup, if_neg ha]
      exact ih

lemma fsLookup_insert_self (fs : FS) (p : Str) (d : FileData) :
    fsLookup (fsInsert fs p d) p = some d := by
  simp [fsInsert, fsLookup]

lemma fsLookup_insert_ne (fs : FS) {p q : Str} (d : FileData) (h : p ≠ q) :
    fsLookup (fsInsert fs p d) q = fsLookup fs q := by
  rw [fsInsert, fsLookup, if_neg h]
  exact fsLookup_remove_ne fs h

lemma suffix_eq_of_length_eq {l s t : Str} (hs : s <:+ l) (ht : t <:+ l)
    (h : s.length = t.length) : s = t := by
  obtain ⟨a, ha⟩ := hs
  obtain ⟨b, hb⟩ := ht
  exact (List.append_inj' (ha.trans hb.symm) h).2

lemma lowerStr_append (a b : Str) : lowerStr (a ++ b) = lowerStr a ++ lowerStr b :=
  List.map_append _ a b

/-- Appending `".jpg"` yields a path that (lower-cased) ends in `".jpg"`. -/
lemma jpg_suffix_append (s : Str) :
    strEndsWith (lowerStr (s ++ ".jpg".toList)) ".jpg".toList = true := by
  rw [strEndsWith, lowerStr_append, List.isSuffixOf_iff_suffix]
  exact List.suffix_append _ _

/-- Two paths ending (lower-cased) in `".png"` and `".jpg"` respectively are
distinct. -/
lemma png_ne_jpg {p q : Str}
    (hp : strEndsWith (lowerStr p) ".png".toList = true)
    (hq : strEndsWith (lowerStr q) ".jpg".toList = true) : p ≠ q := by
  intro h
  subst h
  rw [strEndsWith, List.isSuffixOf_iff_suffix] at hp hq
  exact absurd (suffix_eq_of_length_eq hp hq rfl) (by decide)

/-- A path that (lower-cased) ends in `".png"` fails the `piexif` extension
gate at line 190. -/
lemma jpgFamily_false_of_png {p : Str}
    (hp : strEndsWith (lowerStr p) ".png".toList = true) :
    jpgFamily p = false := by
  rw [strEndsWith, List.isSuffixOf_iff_suffix] at hp
  rw [jpgFamily]
  simp only [List.any_eq_false, strEndsWith, List.isSuffixOf_iff_suffix]
  intro x hx hsuf
  fin_cases hx
  · exact absurd (suffix_eq_of_length_eq hp hsuf rfl) (by decide)
  · exact absurd (List.suffix_of_suffix_length_le hp hsuf (by decide)) (by decide)
  · exact absurd (suffix_eq_of_length_eq hp hsuf rfl) (by decide)
  · exact absurd (List.suffix_of_suffix_length_le hp hsuf (by decide)) (by decide)

/-! ## Claim theorems -/

/-- C9.  When `piexif` is unavailable, `set_gps_location` re-raises
the ImportError (after its warning print) instead of failing soft with the
original path: the missing-dependency condition propagates out of the
writer. -/
theorem missing_piexif_propagates (env : Env) (fs : FS) (p : Str) (lat lon : ℚ)
    (h : env.piexifAvailable = false) :
    set_gps_location env fs p lat lon = .error "ImportError: piexif" := by
  simp [set_gps_location, h]

/-- Witness for C9 at a concrete input. -/
theorem missing_piexif_propagates_witness :
    set_gps_location ⟨false, true, true, true, none⟩ [] "a.jpg".toList 1 2
      = .error "ImportError: piexif" :=
  missing_piexif_propagates ⟨false, true, true, true, none⟩ [] "a.jpg".toList 1 2 rfl

/-- C7.  On a file whose extension is neither in the TIFF-based family
(`.jpg`/`.jpeg`/`.tif`/`.tiff`) nor `.png`, `set_gps_location` refuses the
operation: it returns the original path and the very same file system, so
every file's content is untouched. -/
theorem unsupported_format_refused (env : Env) (fs : FS) (p : Str) (lat lon : ℚ)
    (hav : env.piexifAvailable = true)
    (h1 : jpgFamily p = false)
    (h2 : strEndsWith (lowerStr p) ".png".toList = false) :
    set_gps_location env fs p lat lon = .ok (fs, p) := by
  have h2' : strEndsWith (lowerStr p) ['.', 'p', 'n', 'g'] = false := h2
  simp [set_gps_location, hav, h1, h2']

/-- Witness for C7 at a concrete input (`.gif` file). -/
theorem unsupported_format_refused_witness :
    set_gps_location ⟨true, true, true, true, none⟩
      [("photos/a.gif".toList, ⟨"GIF", 3, none⟩)] "photos/a.gif".toList 1 2
      = .ok ([("photos/a.gif".toList, ⟨"GIF", 3, none⟩)], "photos/a.gif".toList) :=
  unsupported_format_refused _ _ _ 1 2 rfl (by decide) (by decide)

/-- C6.  If the load/convert/persist step raises (modelled by
`persistOk = false`, which covers any exception inside the `try` at lines
206-217), the write is aborted: the original path is returned and the
original file's content is exactly what it was before the attempt. -/
theorem failed_write_preserves_original (env : Env) (fs : FS) (p : Str)
    (lat lon : ℚ)
    (hav : env.piexifAvailable = true)
    (hfail : env.persistOk = false) :
    ∃ fs2, set_gps_location env fs p lat lon = .ok (fs2, p) ∧
      fsLookup fs2 p = fsLookup fs p := by
  have hps : ∀ (fs1 : FS) (fp op : Str), persistGps env fs1 fp op lat lon = (fs1, op) := by
    intro fs1 fp op
    unfold persistGps
    rw [hfail]
    cases fsLookup fs1 fp <;> rfl
  rw [set_gps_location, if_neg (by simp [hav])]
  by_cases h1 : jpgFamily p
  · rw [if_neg (by simp [h1])]
    exact ⟨fs, by rw [hps], rfl⟩
  · rw [if_pos (by simp [h1])]
    by_cases h2 : strEndsWith (lowerStr p) ".png".toList
    · rw [if_pos h2]
      cases hfd : fsLookup fs p with
      | none => cases env.convertOk <;> exact ⟨fs, rfl, hfd⟩
      | some fd =>
        cases hco : env.convertOk
        · exact ⟨fs, rfl, hfd⟩
        · dsimp only
          refine ⟨_, by rw [hps], ?_⟩
          rw [fsLookup_insert_ne fs _
            (png_ne_jpg h2 (jpg_suffix_append (splitext p).1)).symm]
          exact hfd
    · rw [if_neg h2]
      exact ⟨fs, rfl, rfl⟩

/-- Witness for C6 at a concrete input (a `.png` whose conversion succeeds
but whose persist step fails). -/
theorem failed_write_preserves_original_witness :
    ∃ fs2, set_gps_location ⟨true, true, false, true, none⟩
      [("photos/a.png".toList, ⟨"PNG", 3, none⟩)] "photos/a.png".toList 1 2
      = .ok (fs2, "photos/a.png".toList) ∧
      fsLookup fs2 "photos/a.png".toList
        = fsLookup [("photos/a.png".toList, ⟨"PNG", 3, none⟩)] "photos/a.png".toList :=
  failed_write_preserves_original _ _ _ 1 2 rfl rfl

/-- C3.  Round-trip of the Coordinate Codec on `[-180, 180]`: encoding with
`to_deg` (seconds at fixed denominator 10000) and decoding with
`get_decimal_from_dms` under the chosen hemisphere reference recovers the
input within half a seconds-unit, `1/72000000`. -/
theorem dms_roundtrip_within_tolerance (x : ℚ) (loc : String × String)
    (hx1 : -180 ≤ x) (hx2 : x ≤ 180)
    (hloc : loc = ("N", "S") ∨ loc = ("E", "W")) :
    |get_decimal_from_dms (dmsDecode (to_deg x loc).1) (to_deg x loc).2 - x|
      ≤ 1 / 72000000 :=
  to_deg_roundtrip x loc hloc

/-- Witness for C3 at `x = 48.8566` (latitude pair) and `x = -0.1278`
(longitude pair). -/
theorem dms_roundtrip_within_tolerance_witness :
    |get_decimal_from_dms (dmsDecode (to_deg (488566/10000) ("N", "S")).1)
        (to_deg (488566/10000 : ℚ) ("N", "S")).2 - 488566/10000| ≤ 1 / 72000000 ∧
    |get_decimal_from_dms (dmsDecode (to_deg (-1278/10000) ("E", "W")).1)
        (to_deg (-1278/10000 : ℚ) ("E", "W")).2 - (-1278/10000)| ≤ 1 / 72000000 :=
  ⟨dms_roundtrip_within_tolerance (488566/10000) _ (by norm_num) (by norm_num)
      (Or.inl rfl),
   dms_roundtrip_within_tolerance (-1278/10000) _ (by norm_num) (by norm_num)
      (Or.inr rfl)⟩

/-! ### Leftmost-match lemmas for the regex search -/

lemma searchTS_first (l : Str) (i : Nat) (g : TSGroups)
    (hfound : tsAt l i = some g) (hfirst : ∀ j, j < i → tsAt l j = none) :
    searchTS l = some g := by
  induction l generalizing i with
  | nil =>
    rw [tsAt, List.drop_nil] at hfound
    exact absurd hfound (by simp [matchTS])
  | cons c t ih =>
    cases i with
    | zero =>
      have h0 : matchTS (c :: t) = some g := hfound
      rw [searchTS, h0]
    | succ i =>
      have h0 : matchTS (c :: t) = none := hfirst 0 (Nat.succ_pos i)
      rw [searchTS, h0]
      exact ih i hfound fun j hj => hfirst (j + 1) (by omega)

lemma tsAt_none_of_le_length (l : Str) (i : Nat) (hlen : l.length ≤ i) :
    tsAt l i = none := by
  rw [tsAt, List.drop_eq_nil_of_le hlen]
  rfl

lemma searchTS_eq_none (l : Str) (h : ∀ i, i ≤ l.length → tsAt l i = none) :
    searchTS l = none := by
  induction l with
  | nil => rfl
  | cons c t ih =>
    have h0 : matchTS (c :: t) = none := h 0 (by omega)
    rw [searchTS, h0]
    exact ih fun i hi => h (i + 1) (by simp; omega)

/-- C2.  If the leftmost occurrence of the pattern `2022MMDD_HHMMSS` in the
filename is at position `i` and its six groups form a valid calendar
date/time, `extract_timestamp` returns exactly that date/time; when the
filename starts with the `SAMSUNG` prefix it returns that date/time minus
exactly 9 hours. -/
theorem timestamp_extraction_exact (l : Str) (i : Nat) (g : TSGroups)
    (hfound : tsAt l i = some g)
    (hfirst : ∀ j, j < i → tsAt l j = none)
    (hvalid : validTS g = true) :
    (samsungPrefix.isPrefixOf l = false → extract_timestamp l = some (civilSecs g)) ∧
    (samsungPrefix.isPrefixOf l = true →
      extract_timestamp l = some (civilSecs g - 9 * 3600)) := by
  have hs := searchTS_first l i g hfound hfirst
  constructor <;> intro hp <;> simp [extract_timestamp, hs, hvalid, hp]

/-- Witness for C2: a plain filename and a `SAMSUNG`-prefixed one. -/
theorem timestamp_extraction_exact_witness :
    extract_timestamp "TRIP_20220815_120301.jpg".toList
      = some (civilSecs (8, 15, 12, 3, 1)) ∧
    extract_timestamp "SAMSUNG_20220815_120301.jpg".toList
      = some (civilSecs (8, 15, 12, 3, 1) - 9 * 3600) :=
  ⟨(timestamp_extraction_exact "TRIP_20220815_120301.jpg".toList 5
      (8, 15, 12, 3, 1) (by decide) (by decide) (by decide)).1 (by decide),
   (timestamp_extraction_exact "SAMSUNG_20220815_120301.jpg".toList 8
      (8, 15, 12, 3, 1) (by decide) (by decide) (by decide)).2 (by decide)⟩

/-- C8.  If the filename has no occurrence of the pattern at all, or its
leftmost occurrence has groups that are not a valid calendar date/time,
`extract_timestamp` returns `none` (the `ValueError` is caught; no error
escapes — the embedding is a total function into `Option`). -/
theorem timestamp_extraction_absent (l : Str) :
    ((∀ i, i ≤ l.length → tsAt l i = none) → extract_timestamp l = none) ∧
    (∀ i g, tsAt l i = some g → (∀ j, j < i → tsAt l j = none) →
      validTS g = false → extract_timestamp l = none) := by
  constructor
  · intro h
    rw [extract_timestamp, searchTS_eq_none l h]
  · intro i g hfound hfirst hinvalid
    simp [extract_timestamp, searchTS_first l i g hfound hfirst, hinvalid]

/-- Witness for C8: a patternless filename, and one whose match has
month 13. -/
theorem timestamp_extraction_absent_witness :
    extract_timestamp "hello.jpg".toList = none ∧
    extract_timestamp "x_20221340_000000.jpg".toList = none :=
  ⟨(timestamp_extraction_absent "hello.jpg".toList).1 (by decide),
   (timestamp_extraction_absent "x_20221340_000000.jpg".toList).2 2
      (13, 40, 0, 0, 0) (by decide) (by decide) (by decide)⟩

/-! ### Walk lemmas for the resolver -/

lemma gpsWalk_cons (d : Nat) (r : RefImage) (rest : List (Nat × RefImage)) :
    gpsWalk ((d, r) :: rest) =
      match validCoord r with
      | some (la, lo) => (some la, some lo)
      | none => gpsWalk rest := by
  simp only [gpsWalk, validCoord]
  cases hre : r.exif with
  | none => rfl
  | some e =>
    dsimp only
    rcases hget : get_lat_lon e with ⟨ola, olo⟩
    cases ola with
    | none => cases olo <;> rfl
    | some la =>
      cases olo with
      | none => rfl
      | some lo =>
        dsimp only
        by_cases hc : la ≠ 0 ∧ lo ≠ 0
        · rw [if_pos hc, if_pos hc]
        · rw [if_neg hc, if_neg hc]

lemma validCoord_ne_zero {r : RefImage} {la lo : ℚ}
    (h : validCoord r = some (la, lo)) : la ≠ 0 ∧ lo ≠ 0 := by
  unfold validCoord at h
  cases hre : r.exif with
  | none => rw [hre] at h; cases h
  | some e =>
    rw [hre] at h
    dsimp only at h
    rcases hget : get_lat_lon e with ⟨ola, olo⟩
    rw [hget] at h
    cases ola with
    | none => cases olo <;> cases h
    | some a =>
      cases olo with
      | none => cases h
      | some b =>
        dsimp only at h
        by_cases hc : a ≠ 0 ∧ b ≠ 0
        · rw [if_pos hc] at h
          simp only [Option.some.injEq, Prod.mk.injEq] at h
          obtain ⟨rfl, rfl⟩ := h
          exact hc
        · rw [if_neg hc] at h
          cases h

lemma gpsWalk_ne_zero : ∀ {l : List (Nat × RefImage)} {la lo : ℚ},
    gpsWalk l = (some la, some lo) → la ≠ 0 ∧ lo ≠ 0
  | [], _, _, h => by cases h
  | (d, r) :: rest, la, lo, h => by
    rw [gpsWalk_cons] at h
    cases hv : validCoord r with
    | none =>
      rw [hv] at h
      exact gpsWalk_ne_zero h
    | some p =>
      obtain ⟨va, vb⟩ := p
      rw [hv] at h
      simp only [Prod.mk.injEq, Option.some.injEq] at h
      obtain ⟨rfl, rfl⟩ := h
      exact validCoord_ne_zero hv

lemma find_closest_ne_zero {target : Str} {refs : List RefImage} {la lo : ℚ}
    (h : find_closest_gps_in_reference target refs = (some la, some lo)) :
    la ≠ 0 ∧ lo ≠ 0 := by
  unfold find_closest_gps_in_reference at h
  cases ht : extract_timestamp target with
  | none => rw [ht] at h; cases h
  | some t =>
    rw [ht] at h
    dsimp only at h
    by_cases he : (refs.map fun r => ((r.time - t).natAbs, r)).isEmpty
    · rw [if_pos he] at h; cases h
    · rw [if_neg he] at h
      exact gpsWalk_ne_zero h

lemma mainStep_records (env : Env) (refs : List RefImage)
    (st : FS × List PhotoRecord × List LogEntry) (f : Str) :
    (mainStep env refs st f).2.1 = st.2.1 ∨
    ∃ rec, (mainStep env refs st f).2.1 = st.2.1 ++ [rec] ∧
      rec.lat ≠ 0 ∧ rec.lon ≠ 0 := by
  obtain ⟨fs, recs, log⟩ := st
  rw [mainStep]
  by_cases hi : hasImageExt f
  · rw [if_pos hi]
    dsimp only
    rcases hfc : find_closest_gps_in_reference f refs with ⟨ola, olo⟩
    cases ola with
    | none => cases olo <;> exact Or.inl rfl
    | some la =>
      cases olo with
      | none => exact Or.inl rfl
      | some lo =>
        dsimp only
        by_cases hz : la ≠ 0 ∧ lo ≠ 0
        · rw [if_pos hz]
          cases set_gps_location env fs (photosDirStr ++ '/' :: f) la lo with
          | error e => exact Or.inl rfl
          | ok pr =>
            obtain ⟨fs2, fp⟩ := pr
            exact Or.inr ⟨_, rfl, hz⟩
        · rw [if_neg hz]
          exact Or.inl rfl
  · rw [if_neg hi]
    exact Or.inl rfl

lemma foldl_records_ne_zero (env : Env) (refs : List RefImage) :
    ∀ (targets : List Str) (st : FS × List PhotoRecord × List LogEntry)
      (r : PhotoRecord), r ∈ (targets.foldl (mainStep env refs) st).2.1 →
      r ∈ st.2.1 ∨ (r.lat ≠ 0 ∧ r.lon ≠ 0)
  | [], _, _, h => Or.inl h
  | f :: ts, st, r, h => by
    rcases foldl_records_ne_zero env refs ts (mainStep env refs st f) r h with
      hmem | hok
    · rcases mainStep_records env refs st f with heq | ⟨rec, heq, h0⟩
      · rw [heq] at hmem
        exact Or.inl hmem
      · rw [heq] at hmem
        rcases List.mem_append.mp hmem with h1 | h2
        · exact Or.inl h1
        · rw [List.mem_singleton.mp h2]
          exact Or.inr h0
    · exact Or.inr hok

/-- C10.  A coordinate with a zero component is treated as absent throughout
the pipeline: the resolver never returns a pair with latitude or longitude
`0` (such reference candidates are skipped by the `if lat and lon` truthiness
test), and every `PhotoRecord` the batch loop emits has nonzero latitude and
longitude (a target resolving to a zero component is skipped by the same
truthiness test in `main`, producing no record). -/
theorem zero_coordinate_treated_as_absent :
    (∀ (target : Str) (refs : List RefImage) (la lo : ℚ),
      find_closest_gps_in_reference target refs = (some la, some lo) →
        la ≠ 0 ∧ lo ≠ 0) ∧
    (∀ (env : Env) (refL : Option (List RefFile)) (targets : List Str)
      (fs0 : FS) (r : PhotoRecord), r ∈ (mainLoop env refL targets fs0).2.1 →
        r.lat ≠ 0 ∧ r.lon ≠ 0) := by
  constructor
  · intro _ _ _ _ h
    exact find_closest_ne_zero h
  · intro env refL targets fs0 r h
    rcases foldl_records_ne_zero env (get_reference_images refL) targets
      (fs0, [], []) r h with hmem | hok
    · cases hmem
    · exact hok

/-- Witness for C10: the resolver result on a concrete index, and a record
emitted by a concrete batch run. -/
theorem zero_coordinate_treated_as_absent_witness :
    ((2 : ℚ) ≠ 0 ∧ (3 : ℚ) ≠ 0) ∧
    ((2 : ℚ) ≠ 0 ∧ (3 : ℚ) ≠ 0) :=
  ⟨zero_coordinate_treated_as_absent.1 "IMG_20220815_120000.jpg".toList
      [⟨19569900, "a_20220815_120500.jpg".toList,
        some ⟨some ⟨some (2, 0, 0), some "N", some (3, 0, 0), some "E"⟩⟩⟩] 2 3
      (by decide),
   zero_coordinate_treated_as_absent.2 ⟨true, true, true, true, none⟩
      (some [⟨"a_20220815_120500.jpg".toList,
        some ⟨some ⟨some (2, 0, 0), some "N", some (3, 0, 0), some "E"⟩⟩⟩])
      ["IMG_20220815_120000.png".toList]
      [("photos/IMG_20220815_120000.png".toList, ⟨"PNG", 7, none⟩)]
      ⟨2, 3, "photos/IMG_20220815_120000.jpg".toList,
        "IMG_20220815_120000.jpg".toList, none⟩
      (by decide)⟩

lemma mainStep_count (env : Env) (refs : List RefImage)
    (st : FS × List PhotoRecord × List LogEntry) (f : Str) :
    (mainStep env refs st f).2.1.length + (mainStep env refs st f).2.2.length =
      st.2.1.length + st.2.2.length + (if hasImageExt f then 1 else 0) := by
  obtain ⟨fs, recs, log⟩ := st
  rw [mainStep]
  by_cases hi : hasImageExt f
  · rw [if_pos hi, if_pos hi]
    dsimp only
    rcases find_closest_gps_in_reference f refs with ⟨ola, olo⟩
    cases ola with
    | none => cases olo <;> (simp; omega)
    | some la =>
      cases olo with
      | none => simp; omega
      | some lo =>
        dsimp only
        by_cases hz : la ≠ 0 ∧ lo ≠ 0
        · rw [if_pos hz]
          cases set_gps_location env fs (photosDirStr ++ '/' :: f) la lo with
          | error e => simp; omega
          | ok pr =>
            obtain ⟨fs2, fp⟩ := pr
            simp; omega
        · rw [if_neg hz]
          simp; omega
  · rw [if_neg hi, if_neg hi]
    simp

lemma foldl_count (env : Env) (refs : List RefImage) :
    ∀ (targets : List Str) (st : FS × List PhotoRecord × List LogEntry),
      (targets.foldl (mainStep env refs) st).2.1.length +
        (targets.foldl (mainStep env refs) st).2.2.length =
      st.2.1.length + st.2.2.length + (targets.filter hasImageExt).length
  | [], st => by simp
  | f :: ts, st => by
    rw [List.foldl_cons, foldl_count env refs ts (mainStep env refs st f),
      mainStep_count env refs st f, List.filter_cons]
    by_cases hi : hasImageExt f
    · rw [if_pos hi, if_pos hi]
      simp
      omega
    · rw [if_neg hi, if_neg hi]
      simp

/-- C5 (amended).  No per-photo failure ever aborts the batch: every file of
the target listing with an image extension is driven to exactly one outcome
— a new `PhotoRecord` or a logged skip/error — and the loop continues to the
next photo.  This holds for every environment, including `piexifAvailable =
false` (the writer's re-raised missing-dependency error is caught by the
loop's `except Exception` handler); the manual-entry stop path is absent
from the orchestrator. -/
theorem batch_never_aborted (env : Env) (refL : Option (List RefFile))
    (targets : List Str) (fs0 : FS) :
    (mainLoop env refL targets fs0).2.1.length +
      (mainLoop env refL targets fs0).2.2.length =
    (targets.filter hasImageExt).length := by
  rw [mainLoop, foldl_count env (get_reference_images refL) targets (fs0, [], [])]
  simp

/-- Counterexample to C5 as stated: with `piexif` missing, the writer raises
the missing-dependency error on the first photo, but the run is not aborted —
the orchestrator's `except Exception` catches it, logs it, and processes the
second photo too (which also errors), leaving two error log entries.  The
claim's assertion that the missing-dependency error aborts the run is false
(so is the stop-signal exception: that fallback call is commented out). -/
theorem missing_dependency_does_not_abort :
    (mainLoop ⟨false, true, true, true, none⟩
        (some [⟨"a_20220815_120500.jpg".toList,
          some ⟨some ⟨some (2, 0, 0), some "N", some (3, 0, 0), some "E"⟩⟩⟩])
        ["x_20220815_120000.png".toList, "y_20220815_120100.png".toList]
        []).2.2
      = [.errored "x_20220815_120000.png".toList,
         .errored "y_20220815_120100.png".toList] ∧
    (mainLoop ⟨false, true, true, true, none⟩
        (some [⟨"a_20220815_120500.jpg".toList,
          some ⟨some ⟨some (2, 0, 0), some "N", some (3, 0, 0), some "E"⟩⟩⟩])
        ["x_20220815_120000.png".toList, "y_20220815_120100.png".toList]
        []).2.1 = [] := by
  constructor <;> decide

/-- C4.  On a PNG input that exists, when conversion and persist succeed,
`set_gps_location` produces a JPEG file at the new `.jpg` path (a genuinely
different path), returns that new path, stores the four GPS fields whose
decoding recovers the input coordinate within `1/72000000`, deletes the
original PNG when `os.remove` succeeds, and still succeeds with the same
result when the deletion fails (the `OSError` is swallowed, the original
merely survives). -/
theorem png_converted_and_tagged (env : Env) (fs : FS) (p : Str) (lat lon : ℚ)
    (fd : FileData)
    (hav : env.piexifAvailable = true)
    (hconv : env.convertOk = true)
    (hpers : env.persistOk = true)
    (hpng : strEndsWith (lowerStr p) ".png".toList = true)
    (hex : fsLookup fs p = some fd) :
    ∃ fs2, set_gps_location env fs p lat lon
        = .ok (fs2, (splitext p).1 ++ ".jpg".toList) ∧
      (splitext p).1 ++ ".jpg".toList ≠ p ∧
      fsLookup fs2 ((splitext p).1 ++ ".jpg".toList)
        = some ⟨"JPEG", fd.pixels, some (gpsEncode lat lon)⟩ ∧
      |get_decimal_from_dms (dmsDecode (gpsEncode lat lon).lat)
          (gpsEncode lat lon).latRef - lat| ≤ 1 / 72000000 ∧
      |get_decimal_from_dms (dmsDecode (gpsEncode lat lon).lon)
          (gpsEncode lat lon).lonRef - lon| ≤ 1 / 72000000 ∧
      (env.removeOk = true → fsLookup fs2 p = none) ∧
      (env.removeOk = false → fsLookup fs2 p = some fd) := by
  have hne : (splitext p).1 ++ ".jpg".toList ≠ p :=
    (png_ne_jpg hpng (jpg_suffix_append (splitext p).1)).symm
  have hlat : |get_decimal_from_dms (dmsDecode (gpsEncode lat lon).lat)
      (gpsEncode lat lon).latRef - lat| ≤ 1 / 72000000 := by
    simpa [gpsEncode] using to_deg_roundtrip lat ("N", "S") (Or.inl rfl)
  have hlon : |get_decimal_from_dms (dmsDecode (gpsEncode lat lon).lon)
      (gpsEncode lat lon).lonRef - lon| ≤ 1 / 72000000 := by
    simpa [gpsEncode] using to_deg_roundtrip lon ("E", "W") (Or.inr rfl)
  simp only [set_gps_location]
  rw [if_neg (by simp [hav]), if_pos (by simp [jpgFamily_false_of_png hpng]),
    if_pos hpng, hex, hconv]
  dsimp only
  unfold persistGps
  rw [fsLookup_insert_self, hpers]
  dsimp only
  have hlook2 : fsLookup
      (fsInsert
        (fsInsert fs ((splitext p).1 ++ ".jpg".toList)
          ⟨"JPEG", fd.pixels, none⟩)
        ((splitext p).1 ++ ".jpg".toList)
        ⟨"JPEG", fd.pixels, some (gpsEncode lat lon)⟩) p = some fd := by
    rw [fsLookup_insert_ne _ _ hne, fsLookup_insert_ne _ _ hne]
    exact hex
  rw [if_pos ⟨hne, by rw [hlook2]; rfl⟩]
  cases hrm : env.removeOk
  · rw [if_neg (by decide)]
    refine ⟨_, rfl, hne, ?_, hlat, hlon, ?_, ?_⟩
    · rw [fsLookup_insert_self]
    · intro h; cases h
    · intro _; exact hlook2
  · rw [if_pos rfl]
    refine ⟨_, rfl, hne, ?_, hlat, hlon, ?_, ?_⟩
    · rw [fsLookup_remove_ne _ (Ne.symm hne), fsLookup_insert_self]
    · intro _; exact fsLookup_remove_self _ p
    · intro h; cases h

/-- Witness for C4 at a concrete input, both for a succeeding and a failing
deletion. -/
theorem png_converted_and_tagged_witness :
    (∃ fs2, set_gps_location ⟨true, true, true, true, none⟩
        [("photos/a.png".toList, ⟨"PNG", 7, none⟩)] "photos/a.png".toList
        (9/2) (-3/4)
        = .ok (fs2, (splitext "photos/a.png".toList).1 ++ ".jpg".toList) ∧
      (splitext "photos/a.png".toList).1 ++ ".jpg".toList ≠ "photos/a.png".toList ∧
      fsLookup fs2 ((splitext "photos/a.png".toList).1 ++ ".jpg".toList)
        = some ⟨"JPEG", 7, some (gpsEncode (9/2) (-3/4))⟩ ∧
      |get_decimal_from_dms (dmsDecode (gpsEncode (9/2) (-3/4)).lat)
          (gpsEncode (9/2) (-3/4)).latRef - 9/2| ≤ 1 / 72000000 ∧
      |get_decimal_from_dms (dmsDecode (gpsEncode (9/2) (-3/4)).lon)
          (gpsEncode (9/2) (-3/4)).lonRef - (-3/4)| ≤ 1 / 72000000 ∧
      (true = true → fsLookup fs2 "photos/a.png".toList = none) ∧
      (true = false → fsLookup fs2 "photos/a.png".toList = some ⟨"PNG", 7, none⟩)) :=
  png_converted_and_tagged ⟨true, true, true, true, none⟩
    [("photos/a.png".toList, ⟨"PNG", 7, none⟩)] "photos/a.png".toList
    (9/2) (-3/4) ⟨"PNG", 7, none⟩ rfl rfl rfl (by decide) (by decide)

/-! ### Decomposition of the walk, and the C1 analysis -/

lemma gpsWalk_some_decomp : ∀ {l : List (Nat × RefImage)} {la lo : ℚ},
    gpsWalk l = (some la, some lo) →
    ∃ l1 c l2, l = l1 ++ c :: l2 ∧ validCoord c.2 = some (la, lo) ∧
      ∀ x ∈ l1, validCoord x.2 = none
  | [], _, _, h => by cases h
  | (d, r) :: rest, la, lo, h => by
    rw [gpsWalk_cons] at h
    cases hv : validCoord r with
    | none =>
      rw [hv] at h
      obtain ⟨l1, c, l2, heq, hc, hall⟩ := gpsWalk_some_decomp h
      refine ⟨(d, r) :: l1, c, l2, by rw [heq]; rfl, hc, ?_⟩
      intro x hx
      rcases List.mem_cons.mp hx with rfl | hx2
      · exact hv
      · exact hall x hx2
    | some pp =>
      obtain ⟨va, vb⟩ := pp
      rw [hv] at h
      simp only [Prod.mk.injEq, Option.some.injEq] at h
      obtain ⟨rfl, rfl⟩ := h
      exact ⟨[], (d, r), rest, rfl, hv, by intro x hx; cases hx⟩

lemma gpsWalk_exists_some : ∀ {l : List (Nat × RefImage)},
    (∃ x ∈ l, (validCoord x.2).isSome) →
    ∃ la lo, gpsWalk l = (some la, some lo)
  | [], h => absurd h.choose_spec.1 (List.not_mem_nil h.choose)
  | (d, r) :: rest, h => by
    obtain ⟨x, hx, hsome⟩ := h
    rw [gpsWalk_cons]
    cases hv : validCoord r with
    | some pp =>
      obtain ⟨va, vb⟩ := pp
      exact ⟨va, vb, rfl⟩
    | none =>
      rcases List.mem_cons.mp hx with rfl | hx2
      · rw [show validCoord (d, r).2 = none from hv] at hsome
        cases hsome
      · exact gpsWalk_exists_some ⟨x, hx2, hsome⟩

/-- C1 (amended).  When the target timestamp is extractable, the resolver's
result is exactly governed by `validCoord` (a present GPS pair with both
components nonzero, readable without exception): any returned pair is the
coordinate of a single reference entry whose `validCoord` is that pair and
whose time delta is minimal among all entries with a `validCoord`; and if
any entry has a `validCoord`, the resolver does return a pair.  Candidates
with smaller delta but no such coordinate are skipped; nothing is merged or
averaged. -/
theorem closest_valid_candidate_wins (target : Str) (refs : List RefImage)
    (t : Int) (h : extract_timestamp target = some t) :
    (∀ la lo, find_closest_gps_in_reference target refs = (some la, some lo) →
      ∃ r ∈ refs, validCoord r = some (la, lo) ∧
        ∀ s ∈ refs, (validCoord s).isSome →
          (r.time - t).natAbs ≤ (s.time - t).natAbs) ∧
    ((∃ r ∈ refs, (validCoord r).isSome) →
      ∃ la lo, find_closest_gps_in_reference target refs = (some la, some lo)) := by
  have hperm := List.perm_insertionSort deltaLE
    (refs.map fun r => ((r.time - t).natAbs, r))
  have hsorted := List.sorted_insertionSort deltaLE
    (refs.map fun r => ((r.time - t).natAbs, r))
  constructor
  · intro la lo hres
    rw [find_closest_gps_in_reference, h] at hres
    dsimp only at hres
    by_cases he : (refs.map fun r => ((r.time - t).natAbs, r)).isEmpty
    · rw [if_pos he] at hres
      cases hres
    · rw [if_neg he] at hres
      obtain ⟨l1, c, l2, heq, hc, hall⟩ := gpsWalk_some_decomp hres
      have hcmem : c ∈ (refs.map fun r => ((r.time - t).natAbs, r)) :=
        hperm.mem_iff.mp (heq ▸ List.mem_append_right l1 (List.mem_cons_self c l2))
      obtain ⟨r, hrrefs, hrc⟩ := List.mem_map.mp hcmem
      subst hrc
      refine ⟨r, hrrefs, hc, ?_⟩
      intro s hs hssome
      by_contra hgt
      push_neg at hgt
      have hsmem : ((s.time - t).natAbs, s)
          ∈ (refs.map fun r => ((r.time - t).natAbs, r)).insertionSort deltaLE :=
        hperm.mem_iff.mpr (List.mem_map.mpr ⟨s, hs, rfl⟩)
      rw [heq] at hsmem
      rcases List.mem_append.mp hsmem with h1 | h2
      · have := hall _ h1
        rw [show validCoord ((s.time - t).natAbs, s).2 = validCoord s from rfl]
          at this
        rw [this] at hssome
        cases hssome
      · rcases List.mem_cons.mp h2 with heq2 | h3
        · have : (s.time - t).natAbs = (r.time - t).natAbs :=
            congrArg Prod.fst heq2
          omega
        · rw [heq] at hsorted
          have hp2 := (List.pairwise_append.mp hsorted).2.1
          have hrel := (List.pairwise_cons.mp hp2).1 _ h3
          have : (r.time - t).natAbs ≤ (s.time - t).natAbs := hrel
          omega
  · rintro ⟨r, hr, hsome⟩
    rw [find_closest_gps_in_reference, h]
    dsimp only
    have hmem : ((r.time - t).natAbs, r)
        ∈ (refs.map fun x => ((x.time - t).natAbs, x)) :=
      List.mem_map.mpr ⟨r, hr, rfl⟩
    rw [if_neg (by
      intro hemp
      rw [List.isEmpty_iff.mp hemp] at hmem
      cases hmem)]
    exact gpsWalk_exists_some ⟨((r.time - t).natAbs, r),
      hperm.mem_iff.mpr hmem, hsome⟩

/-- Reference entry whose metadata yields the present pair `(0, 5)`
(latitude on the equator), 300 s from the sample target's timestamp. -/
def cexRefA : RefImage :=
  ⟨19569900, "a_20220815_120500.jpg".toList,
    some ⟨some ⟨some (0, 0, 0), some "N", some (5, 0, 0), some "E"⟩⟩⟩

/-- Reference entry whose metadata yields the pair `(2, 3)`, 720 s from the
sample target's timestamp. -/
def cexRefB : RefImage :=
  ⟨19570320, "b_20220815_121200.jpg".toList,
    some ⟨some ⟨some (2, 0, 0), some "N", some (3, 0, 0), some "E"⟩⟩⟩

/-- Counterexample to C1 as stated: the target's timestamp is extractable
(19569600 s), the closest candidate (delta 300 < 720) has metadata yielding
the *present* GPS pair `(0, 5)`, yet the resolver does not return it — it
returns the farther candidate's `(2, 3)` — because the `if lat and lon`
truthiness test treats latitude `0.0` as no GPS. -/
theorem present_zero_gps_skipped :
    extract_timestamp "IMG_20220815_120000.jpg".toList = some 19569600 ∧
    get_lat_lon ⟨some ⟨some (0, 0, 0), some "N", some (5, 0, 0), some "E"⟩⟩
      = (some 0, some 5) ∧
    ((19569900 : Int) - 19569600).natAbs < ((19570320 : Int) - 19569600).natAbs ∧
    find_closest_gps_in_reference "IMG_20220815_120000.jpg".toList
      [cexRefA, cexRefB] = (some 2, some 3) ∧
    (some (0 : ℚ), some (5 : ℚ)) ≠ (some (2 : ℚ), some (3 : ℚ)) := by
  refine ⟨by decide, by decide, by decide, by decide, by decide⟩

/-- Witness for the amended C1 at the same concrete index. -/
theorem closest_valid_candidate_wins_witness :
    (∃ r ∈ [cexRefA, cexRefB], validCoord r = some (2, 3) ∧
      ∀ s ∈ [cexRefA, cexRefB], (validCoord s).isSome →
        (r.time - 19569600).natAbs ≤ (s.time - 19569600).natAbs) ∧
    (∃ la lo, find_closest_gps_in_reference "IMG_20220815_120000.jpg".toList
      [cexRefA, cexRefB] = (some la, some lo)) :=
  have h := closest_valid_candidate_wins "IMG_20220815_120000.jpg".toList
    [cexRefA, cexRefB] 19569600 (by decide)
  ⟨h.1 2 3 (by decide), h.2 ⟨cexRefB, by decide, by decide⟩⟩

end TravelMap
